import Mathlib

/-!
Verification development for `scripts/cleanup-nodes.py`, a k3s node-cleanup
tool.  The script loads `cluster.json` (expected node names), lists the live
cluster nodes with `kubectl`, computes the set difference, and for each extra
node drains it, deletes it and stops the k3s agent over ssh, guarded by a
confirmation prompt and a `--dry-run` flag.

The script is embedded shallowly: every external interaction (a print, the
`kubectl get nodes` call, `kubectl drain`, `kubectl delete node`, an ssh
command) becomes an `Event` in an emitted trace, the outside world's responses
(config file contents, `kubectl` output, the interactive answer, per-command
success of the fallible subprocess calls) are an `Env` record, and `main`
returns the process exit code together with the full event trace.
-/

/-! ### Python string primitives -/

/-- Lexicographic comparison of character lists by code point.  Python
compares strings this way, so `sorted` on node names uses this order. -/
def charListLe : List Char → List Char → Bool
  | [], _ => true
  | _ :: _, [] => false
  | a :: as, b :: bs => if a < b then true else if b < a then false else charListLe as bs

/-- Python string order `a <= b` (code-point lexicographic), as a proposition
so that `List.insertionSort` and the sorting lemmas apply to it. -/
def SLe (a b : String) : Prop := charListLe a.data b.data = true

instance : DecidableRel SLe :=
  fun a b => inferInstanceAs (Decidable (charListLe a.data b.data = true))

instance : IsTotal String SLe := by
  constructor
  have H : ∀ x y : List Char, charListLe x y = true ∨ charListLe y x = true := by
    intro x
    induction x with
    | nil => intro y; left; rfl
    | cons a as ih =>
      intro y
      cases y with
      | nil => right; rfl
      | cons b bs =>
        rcases lt_trichotomy a b with hab | hab | hab
        · left; simp [charListLe, hab]
        · subst hab
          rcases ih bs with h | h
          · left; simp [charListLe, h]
          · right; simp [charListLe, h]
        · right; simp [charListLe, hab]
  intro a b
  exact H a.data b.data

instance : IsTrans String SLe := by
  constructor
  have H : ∀ x y z : List Char, charListLe x y = true → charListLe y z = true →
      charListLe x z = true := by
    intro x
    induction x with
    | nil => intro y z _ _; rfl
    | cons a as ih =>
      intro y z hxy hyz
      cases y with
      | nil => simp [charListLe] at hxy
      | cons b bs =>
        cases z with
        | nil => simp [charListLe] at hyz
        | cons c cs =>
          rcases lt_trichotomy a b with hab | hab | hab
          · rcases lt_trichotomy b c with hbc | hbc | hbc
            · simp [charListLe, lt_trans hab hbc]
            · subst hbc; simp [charListLe, hab]
            · simp [charListLe, hbc, lt_asymm hbc] at hyz
          · subst hab
            rcases lt_trichotomy a c with hac | hac | hac
            · simp [charListLe, hac]
            · subst hac
              simp only [charListLe, lt_irrefl, if_false] at hxy hyz ⊢
              exact ih bs cs hxy hyz
            · simp [charListLe, hac, lt_asymm hac] at hyz
          · simp [charListLe, hab, lt_asymm hab] at hxy
  intro a b c hab hbc
  exact H a.data b.data c.data hab hbc

instance : IsAntisymm String SLe := by
  constructor
  have H : ∀ x y : List Char, charListLe x y = true → charListLe y x = true → x = y := by
    intro x
    induction x with
    | nil =>
      intro y _ hyx
      cases y with
      | nil => rfl
      | cons b bs => simp [charListLe] at hyx
    | cons a as ih =>
      intro y hxy hyx
      cases y with
      | nil => simp [charListLe] at hxy
      | cons b bs =>
        rcases lt_trichotomy a b with hab | hab | hab
        · simp [charListLe, hab, lt_asymm hab] at hyx
        · subst hab
          simp only [charListLe, lt_irrefl, if_false] at hxy hyx
          rw [ih bs hxy hyx]
        · simp [charListLe, hab, lt_asymm hab] at hxy
  intro a b hab hba
  exact String.ext (H a.data b.data hab hba)

/-- Python `sorted` applied to a set of strings: the unique `SLe`-sorted
enumeration of the finite set.  Models `sorted(...)` at lines 108, 131, 142,
151, 158 and 179 of the script (all applied to sets, so duplicate-free). -/
def sortedNodes (s : Finset String) : List String :=
  Quotient.lift (List.insertionSort SLe)
    (fun a b (h : List.Perm a b) =>
      List.eq_of_perm_of_sorted
        (((List.perm_insertionSort SLe a).trans h).trans
          (List.perm_insertionSort SLe b).symm)
        (List.sorted_insertionSort SLe a) (List.sorted_insertionSort SLe b))
    s.1

/-- Characters stripped by Python `int()` from both ends of its argument
(ASCII whitespace; unicode space characters are not modelled). -/
def pyWhitespace (c : Char) : Bool :=
  c == ' ' || c == '\t' || c == '\n' || c == '\r' || c == '\x0b' || c == '\x0c'

/-- Strip leading and trailing whitespace, as Python `int()` does. -/
def stripWs (l : List Char) : List Char :=
  ((l.dropWhile pyWhitespace).reverse.dropWhile pyWhitespace).reverse

/-- Numeric value of an ASCII digit character. -/
def digitVal (c : Char) : Nat := c.toNat - 48

/-- Continue parsing a decimal digit string after the first digit.  A single
underscore is allowed between two digits (Python numeric-literal rule);
a trailing, doubled or digit-less underscore fails. -/
def parseRest (acc : Nat) : List Char → Option Nat
  | [] => some acc
  | c :: cs =>
    if c.isDigit then parseRest (acc * 10 + digitVal c) cs
    else if c == '_' then
      match cs with
      | [] => none
      | d :: ds => if d.isDigit then parseRest (acc * 10 + digitVal d) ds else none
    else none

/-- Parse a non-empty decimal digit string (underscore-separated groups
allowed), as Python `int()` does after sign handling. -/
def pyDigits : List Char → Option Nat
  | [] => none
  | c :: cs => if c.isDigit then parseRest (digitVal c) cs else none

/-- Sign handling of Python `int()`: one optional leading `+` or `-`,
directly followed by the digit string. -/
def pyIntCore : List Char → Option Int
  | [] => none
  | c :: cs =>
    if c == '+' then (pyDigits cs).map (fun n => (n : Int))
    else if c == '-' then (pyDigits cs).map (fun n => -(n : Int))
    else (pyDigits (c :: cs)).map (fun n => (n : Int))

/-- Python `int(s)` for a decimal string: strips surrounding ASCII
whitespace, accepts an optional sign, then a non-empty digit string; `none`
models the `ValueError` caught at line 113 of the script.  (Non-ASCII decimal
digits accepted by CPython are not modelled.) -/
def pyInt (s : String) : Option Int := pyIntCore (stripWs s.data)

/-- Value denoted by a plain decimal digit string. -/
def digitsNat (ds : List Char) : Nat := ds.foldl (fun a c => a * 10 + digitVal c) 0

/-- Boolean list-prefix test (by `==` on characters). -/
def hasPfx : List Char → List Char → Bool
  | [], _ => true
  | _ :: _, [] => false
  | p :: ps, s :: ss => p == s && hasPfx ps ss

/-- Python `s.startswith(p)`. -/
def pyStartswith (s p : String) : Bool := hasPfx p.data s.data

/-- Python slicing `s[n:]`. -/
def pyDrop (s : String) (n : Nat) : String := String.mk (s.data.drop n)

/-- Python `s.lower()`.  `Char.toLower` lower-cases exactly the basic latin
letters, which agrees with CPython on ASCII input; non-ASCII case mappings
are not modelled. -/
def pyLower (s : String) : String := String.mk (s.data.map Char.toLower)

/-- The single-quote character, used by Python `repr` of a string. -/
def squote : Char := Char.ofNat 39

/-- Python `repr` of a string (escape sequences inside the string are not
modelled; node names are assumed printable). -/
def pyStrRepr (s : String) : String := String.singleton squote ++ s ++ String.singleton squote

/-- Python `repr` of a list of strings, as produced by printing
`sorted(node_set)` inside an f-string. -/
def pyListRepr (l : List String) : String :=
  "[" ++ String.intercalate ", " (l.map pyStrRepr) ++ "]"

/-! ### Outside-world responses -/

/-- Result of `load_cluster_config()` plus the comprehension
`(node["name"] for node in config["nodes"])` at lines 129-130: either the
list of declared node names, or any exception (missing file, malformed JSON,
missing key), which the `except` block at line 132 catches. -/
inductive ConfigResult
  | ok (names : List String)
  | loadError
deriving DecidableEq

/-- Result of the `kubectl get nodes -o json` subprocess inside
`get_k3s_nodes` (lines 27-39): the extracted node names on success, or one of
four failure modes.  Only the first two are caught by the `except` clauses:
a `CalledProcessError` (line 34) and a `JSONDecodeError` (line 37).  The
other two escape the function: `spawnError` is a `FileNotFoundError` raised
by `subprocess.run` at line 28 when the `kubectl` binary is missing, and
`shapeError` is a `KeyError`/`TypeError` raised at line 33 when the output
is valid JSON but not shaped as a node list (no `items`, or an item without
`metadata.name`). -/
inductive KubectlResult
  | ok (names : List String)
  | callError
  | parseError
  | spawnError
  | shapeError
deriving DecidableEq

/-! ### Event trace

One constructor per print site or external call of the script; consecutive
prints that always happen together are grouped into one constructor.  The
exact message text of each constructor is recovered by `render` below. -/

inductive Event
  | printHeader
  | printSeparator
  | printLoadError
  | printExpected (names : List String)
  | callListNodes
  | printListCallError
  | printListParseError
  | printNoNodes
  | printActual (names : List String)
  | printAllMatch
  | printNodesToRemove (names : List String)
  | printCannotResolve (node : String)
  | printPlanHeader
  | printPlanEntry (node : String) (ip : String)
  | printDryRunNotice
  | printConfirmWarning (count : Nat)
  | promptProceed
  | printCancelled
  | printProcessing (node : String)
  | printDryRunDrain (node : String)
  | printDraining (node : String)
  | callDrain (node : String)
  | printDrainOk (node : String)
  | printDrainFailed (node : String)
  | printContinueAfterDrain (node : String)
  | printDryRunDelete (node : String)
  | printDeleting (node : String)
  | callDelete (node : String)
  | printDeleteOk (node : String)
  | printDeleteFailed (node : String)
  | printContinueAfterDelete (node : String)
  | printStoppingK3s (node : String) (ip : String)
  | printDryRunSsh (ip : String) (cmd : String)
  | printRunningSsh (ip : String) (cmd : String)
  | callSsh (ip : String) (cmd : String)
  | printSshOk (cmd : String)
  | printSshFailed (ip : String) (cmd : String)
  | printSkipStop (node : String)
  | printSummaryDone (count : Nat)
  | printSummaryDryRun (count : Nat)
  | printNextSteps
  | uncaughtException
deriving DecidableEq

/-- The three event kinds that mutate external state: the cluster drain call,
the cluster node-deletion call, and a remote ssh command.  `callListNodes`
is the read-only listing call. -/
def Event.isMutating : Event → Bool
  | .callDrain _ => true
  | .callDelete _ => true
  | .callSsh _ _ => true
  | _ => false

/-- True when a trace contains no mutating external call. -/
def mutFree (tr : List Event) : Bool := tr.all fun ev => !ev.isMutating

/-- Message text of each event, matching the script's f-strings (exception
details elided; grouped print blocks joined with newlines). -/
def render : Event → String
  | .printHeader => "🧹 k3s Node Cleanup Tool"
  | .printSeparator => String.mk (List.replicate 40 '=')
  | .printLoadError => "❌ Failed to load cluster.json: "
  | .printExpected names => "📋 Expected nodes: " ++ pyListRepr names
  | .callListNodes => "kubectl get nodes -o json"
  | .printListCallError => "❌ Failed to get k3s nodes: "
  | .printListParseError => "❌ Failed to parse kubectl output"
  | .printNoNodes => "⚠️  No k3s nodes found or kubectl not accessible"
  | .printActual names => "🔍 Actual nodes in cluster: " ++ pyListRepr names
  | .printAllMatch => "✅ All cluster nodes match configuration. Nothing to clean up!"
  | .printNodesToRemove names => "\n🎯 Nodes to remove: " ++ pyListRepr names
  | .printCannotResolve node => "⚠️  Cannot determine IP for " ++ node
  | .printPlanHeader => "\n📋 Cleanup Plan:"
  | .printPlanEntry node ip =>
      "  🗑️  " ++ node ++ " (" ++ ip ++ "):\n" ++
      "      1. Drain workloads from node\n" ++
      "      2. Delete node from k3s cluster\n" ++
      "     3. Stop k3s services on " ++ ip ++ "\n" ++
      "      4. Remove k3s token file"
  | .printDryRunNotice => "\n🔍 DRY RUN MODE - No changes will be made"
  | .printConfirmWarning count =>
      "\n⚠️  This will permanently remove " ++ toString count ++
      " node(s) from your k3s cluster!\n" ++
      "   - All workloads will be drained and moved to other nodes\n" ++
      "   - Nodes will be deleted from the cluster\n" ++
      "   - k3s services will be stopped on removed nodes"
  | .promptProceed => "\n🤔 Proceed with cleanup? (y/N): "
  | .printCancelled => "❌ Cleanup cancelled by user"
  | .printProcessing node => "\n🔧 Processing " ++ node ++ "..."
  | .printDryRunDrain node =>
      "[DRY RUN] Would drain node: kubectl drain " ++ node ++
      " --ignore-daemonsets --delete-emptydir-data --force"
  | .printDraining node => "🔄 Draining node " ++ node ++ "..."
  | .callDrain node =>
      "kubectl drain " ++ node ++ " --ignore-daemonsets --delete-emptydir-data --force"
  | .printDrainOk node => "✅ Successfully drained " ++ node
  | .printDrainFailed node => "❌ Failed to drain " ++ node ++ ": "
  | .printContinueAfterDrain node =>
      "⚠️  Continuing with " ++ node ++ " despite drain failure..."
  | .printDryRunDelete node =>
      "[DRY RUN] Would delete node: kubectl delete node " ++ node
  | .printDeleting node => "🗑️  Deleting node " ++ node ++ " from cluster..."
  | .callDelete node => "kubectl delete node " ++ node
  | .printDeleteOk node => "✅ Successfully deleted " ++ node
  | .printDeleteFailed node => "❌ Failed to delete " ++ node ++ ": "
  | .printContinueAfterDelete node =>
      "⚠️  Continuing with " ++ node ++ " despite delete failure..."
  | .printStoppingK3s node ip => "🔌 Stopping k3s on " ++ node ++ " (" ++ ip ++ ")..."
  | .printDryRunSsh ip cmd => "[DRY RUN] Would run on " ++ ip ++ ": " ++ cmd
  | .printRunningSsh ip cmd => "🔧 Running on " ++ ip ++ ": " ++ cmd
  | .callSsh ip cmd => "ssh satya@" ++ ip ++ " " ++ cmd
  | .printSshOk cmd => "✅ Success: " ++ cmd
  | .printSshFailed ip cmd => "⚠️  Failed on " ++ ip ++ ": " ++ cmd ++ " - "
  | .printSkipStop node =>
      "⚠️  Cannot determine IP for " ++ node ++ ", skipping service stop"
  | .printSummaryDone count =>
      "\n🎉 Successfully cleaned up " ++ toString count ++ " nodes!"
  | .printSummaryDryRun count =>
      "\n🔍 DRY RUN: Would clean up " ++ toString count ++ " nodes"
  | .printNextSteps =>
      "\n📝 Next steps:\n1. Verify cluster state: kubectl get nodes\n" ++
      "2. Check workload distribution: kubectl get pods -A -o wide"
  | .uncaughtException => "Traceback (most recent call last): ..."

/-! ### The script's functions -/

/-- The outside world as seen by one invocation of the script: the config
file, the cluster listing, the CLI flag, the interactive answer, and whether
each fallible subprocess call would succeed. -/
structure Env where
  config : ConfigResult
  kubectl : KubectlResult
  dryRun : Bool
  userInput : String
  drainOk : String → Bool
  deleteOk : String → Bool
  sshOk : String → String → Bool

/-- `get_k3s_nodes()` (lines 25-39): returns `some` set of node names; on
the two caught failures (subprocess error, unparsable output) it prints a
message and returns `some ∅` instead of raising; on the two uncaught
failures (missing binary at line 28, wrong-shape JSON at line 33) the
exception propagates to the caller, modelled as `none`. -/
def get_k3s_nodes (r : KubectlResult) : Option (Finset String) × List Event :=
  match r with
  | .ok names => (some names.toFinset, [.callListNodes])
  | .callError => (some ∅, [.callListNodes, .printListCallError])
  | .parseError => (some ∅, [.callListNodes, .printListParseError])
  | .spawnError => (none, [.callListNodes])
  | .shapeError => (none, [.callListNodes])

/-- `drain_node(node_name, dry_run)` (lines 41-56). -/
def drain_node (node : String) (dryRun : Bool) (ok : Bool) : Bool × List Event :=
  if dryRun then (true, [.printDryRunDrain node])
  else
    (ok, [Event.printDraining node, Event.callDrain node] ++
      if ok then [Event.printDrainOk node] else [Event.printDrainFailed node])

/-- `delete_node(node_name, dry_run)` (lines 58-73). -/
def delete_node (node : String) (dryRun : Bool) (ok : Bool) : Bool × List Event :=
  if dryRun then (true, [.printDryRunDelete node])
  else
    (ok, [Event.printDeleting node, Event.callDelete node] ++
      if ok then [Event.printDeleteOk node] else [Event.printDeleteFailed node])

/-- The three remote commands of `stop_k3s_on_node` (lines 79-83). -/
def sshCommands : List String :=
  ["sudo systemctl stop k3s-agent",
   "sudo systemctl disable k3s-agent",
   "sudo rm -f /etc/rancher/k3s/agent-token"]

/-- `stop_k3s_on_node(node_ip, dry_run)` (lines 75-100): runs the three
commands in order; a failed command is logged and the next still runs. -/
def stop_k3s_on_node (ip : String) (dryRun : Bool) (ok : String → Bool) : List Event :=
  sshCommands.flatMap fun cmd =>
    if dryRun then [.printDryRunSsh ip cmd]
    else [Event.printRunningSsh ip cmd, Event.callSsh ip cmd] ++
      if ok cmd then [Event.printSshOk cmd] else [Event.printSshFailed ip cmd]

/-- The per-node body of `get_node_ip` (lines 109-114): a node named
`nuc` + suffix whose suffix parses as an integer `n` resolves to
`"192.168.1." + str(140 + n)`; any other node resolves to nothing. -/
def resolveIp (node : String) : Option String :=
  if pyStartswith node "nuc" then
    match pyInt (pyDrop node 3) with
    | some n => some ("192.168.1." ++ toString (140 + n))
    | none => none
  else none

/-- The warning print of the `except` arm at line 114: emitted exactly when
the name starts with `nuc` but the suffix does not parse. -/
def ipEvents (node : String) : List Event :=
  if pyStartswith node "nuc" && (pyInt (pyDrop node 3)).isNone then
    [Event.printCannotResolve node]
  else []

/-- `get_node_ip(removed_nodes)` (lines 102-116): iterates over the sorted
set and builds the name → IP mapping (as an association list in iteration
order, matching the insertion-ordered dict), emitting a warning for each
`nuc`-prefixed name whose suffix fails to parse. -/
def get_node_ip (removed : Finset String) : List (String × String) × List Event :=
  ((sortedNodes removed).filterMap (fun n => (resolveIp n).map fun ip => (n, ip)),
   (sortedNodes removed).flatMap ipEvents)

/-- The Set Differencer (line 145): `nodes_to_remove = actual_nodes - expected_nodes`. -/
def nodesToRemove (actual expected : Finset String) : Finset String := actual \ expected

/-- The per-node loop body of `main` (lines 179-196): drain, then delete
(each failure only logged), then either stop k3s over ssh when an IP was
resolved or log that the service stop is skipped. -/
def processNode (dry : Bool) (drainOk deleteOk : String → Bool)
    (sshOk : String → String → Bool) (ips : List (String × String))
    (node : String) : List Event :=
  let dres := drain_node node dry (drainOk node)
  let delres := delete_node node dry (deleteOk node)
  [Event.printProcessing node] ++
  dres.2 ++ (if dres.1 then [] else [Event.printContinueAfterDrain node]) ++
  delres.2 ++ (if delres.1 then [] else [Event.printContinueAfterDelete node]) ++
  (match ips.lookup node with
   | some ip => [Event.printStoppingK3s node ip] ++ stop_k3s_on_node ip dry (sshOk ip)
   | none => [Event.printSkipStop node])

/-- `main()` (lines 118-205): returns the process exit code and the event
trace.  `sys.exit(1)` is exit code 1; falling off the end of `main` (or an
early `return`) is exit code 0; an exception escaping `get_k3s_nodes`
(`none`) propagates out of `main` and the interpreter prints a traceback and
exits with code 1.  The loop body is shared between the dry-run and the
confirmed branch, as in the script where the confirmation `if` at lines
166-176 is followed by the loop for both paths. -/
def main_py (env : Env) : Nat × List Event :=
  match env.config with
  | .loadError => (1, [.printHeader, .printSeparator, .printLoadError])
  | .ok cfgNames =>
    let expected_nodes := cfgNames.toFinset
    let pre : List Event :=
      [.printHeader, .printSeparator, .printExpected (sortedNodes expected_nodes)]
    let res := get_k3s_nodes env.kubectl
    match res.1 with
    | none => (1, pre ++ res.2 ++ [.uncaughtException])
    | some actual_nodes =>
    if actual_nodes = ∅ then
      (1, pre ++ res.2 ++ [.printNoNodes])
    else
      let t2 := pre ++ res.2 ++ [Event.printActual (sortedNodes actual_nodes)]
      let toRemove := nodesToRemove actual_nodes expected_nodes
      if toRemove = ∅ then
        (0, t2 ++ [.printAllMatch])
      else
        let t3 := t2 ++ [Event.printNodesToRemove (sortedNodes toRemove)]
        let ipres := get_node_ip toRemove
        let node_ips := ipres.1
        let plan := Event.printPlanHeader ::
          (sortedNodes toRemove).map fun n =>
            Event.printPlanEntry n ((node_ips.lookup n).getD "IP unknown")
        let t4 := t3 ++ ipres.2 ++ plan
        let body := (sortedNodes toRemove).flatMap
          (processNode env.dryRun env.drainOk env.deleteOk env.sshOk node_ips)
        if env.dryRun then
          (0, t4 ++ [Event.printDryRunNotice] ++ body ++
            [Event.printSummaryDryRun toRemove.card, Event.printNextSteps])
        else
          let t5 := t4 ++ [Event.printConfirmWarning toRemove.card, Event.promptProceed]
          if pyLower env.userInput ≠ "y" then
            (0, t5 ++ [.printCancelled])
          else
            (0, t5 ++ body ++
              [Event.printSummaryDone toRemove.card, Event.printNextSteps])

/-! ### Trace shapes of the branches of `main_py` -/

/-- Events up to and including the expected-nodes print (lines 124-131). -/
def headerTrace (e : List String) : List Event :=
  [.printHeader, .printSeparator, .printExpected (sortedNodes e.toFinset)]

/-- The cleanup-plan block (lines 157-164). -/
def planTrace (toRemove : Finset String) : List Event :=
  Event.printPlanHeader :: (sortedNodes toRemove).map fun n =>
    Event.printPlanEntry n (((get_node_ip toRemove).1.lookup n).getD "IP unknown")

/-- Everything `main_py` emits between startup and the dry-run/confirmation
fork, when the removal set is non-empty (lines 124-164). -/
def preRemTrace (e a : List String) : List Event :=
  headerTrace e ++
  [.callListNodes, .printActual (sortedNodes a.toFinset),
   .printNodesToRemove (sortedNodes (nodesToRemove a.toFinset e.toFinset))] ++
  (get_node_ip (nodesToRemove a.toFinset e.toFinset)).2 ++
  planTrace (nodesToRemove a.toFinset e.toFinset)

/-- The per-node reconciliation loop's trace (lines 179-196). -/
def bodyTrace (env : Env) (toRemove : Finset String) : List Event :=
  (sortedNodes toRemove).flatMap
    (processNode env.dryRun env.drainOk env.deleteOk env.sshOk (get_node_ip toRemove).1)

/-- Recognises the final success summary print (line 199). -/
def isSummaryDone : Event → Bool := fun ev =>
  match ev with
  | .printSummaryDone _ => true
  | _ => false

/-- Recognises any part of the cleanup-plan block (lines 157-164). -/
def isPlanEvent : Event → Bool := fun ev =>
  match ev with
  | .printPlanHeader => true
  | .printPlanEntry _ _ => true
  | _ => false

/-- Recognises the cluster listing call (line 28). -/
def isListCall : Event → Bool := fun ev =>
  match ev with
  | .callListNodes => true
  | _ => false

/-- Recognises the nodes-to-remove announcement (line 151), the first point
where the removal set has been computed. -/
def isRemovePrint : Event → Bool := fun ev =>
  match ev with
  | .printNodesToRemove _ => true
  | _ => false

/-- Whether some event of the trace satisfies `p`. -/
def hasEvent (p : Event → Bool) (tr : List Event) : Bool := tr.any p

/-! ### Sample environments -/

/-- Success oracle: every subprocess call succeeds. -/
def okFn : String → Bool := fun _ => true

/-- Success oracle for the ssh calls. -/
def okFn2 : String → String → Bool := fun _ _ => true

def envSubset : Env := ⟨.ok ["nuc1", "nuc2"], .ok ["nuc1", "nuc2"], false, "n", okFn, okFn, okFn2⟩

def envEmptyListing : Env := ⟨.ok ["nuc1"], .ok [], false, "y", okFn, okFn, okFn2⟩

def envListFail : Env := ⟨.ok ["nuc1"], .callError, false, "y", okFn, okFn, okFn2⟩

def envDry : Env :=
  ⟨.ok ["nuc1", "nuc2"], .ok ["nuc1", "nuc2", "nuc3"], true, "", okFn, okFn, okFn2⟩

def envCancel : Env :=
  ⟨.ok ["nuc1", "nuc2"], .ok ["nuc1", "nuc2", "nuc3"], false, "yes", okFn, okFn, okFn2⟩

def envConfigFail : Env := ⟨.loadError, .ok ["nuc1"], false, "y", okFn, okFn, okFn2⟩

def envDrainFail : Env :=
  ⟨.ok ["nuc1"], .ok ["nuc1", "nuc3"], false, "Y", fun _ => false, okFn, okFn2⟩

def envNoPattern : Env :=
  ⟨.ok ["nuc1"], .ok ["nuc1", "worker9"], false, "y", okFn, okFn, okFn2⟩

def envShapeFail : Env := ⟨.ok ["nuc1"], .shapeError, false, "y", okFn, okFn, okFn2⟩

def envSpawnFail : Env := ⟨.ok ["nuc1"], .spawnError, false, "y", okFn, okFn, okFn2⟩

/-! ### Helper lemmas -/

theorem mem_sortedNodes {s : Finset String} {x : String} :
    x ∈ sortedNodes s ↔ x ∈ s := by
  obtain ⟨m, hnd⟩ := s
  induction m using Quotient.inductionOn with
  | h l =>
    show x ∈ List.insertionSort SLe l ↔ _
    rw [(List.perm_insertionSort SLe l).mem_iff]
    rfl

theorem nodup_sortedNodes (s : Finset String) : (sortedNodes s).Nodup := by
  obtain ⟨m, hnd⟩ := s
  induction m using Quotient.inductionOn with
  | h l =>
    exact ((List.perm_insertionSort SLe l).nodup_iff).mpr hnd

theorem mutFree_append {t₁ t₂ : List Event} :
    mutFree (t₁ ++ t₂) = (mutFree t₁ && mutFree t₂) := List.all_append

theorem mutFree_flatMap {α : Type} {l : List α} {f : α → List Event}
    (h : ∀ x ∈ l, mutFree (f x) = true) : mutFree (l.flatMap f) = true := by
  simp only [mutFree, List.all_eq_true] at *
  intro ev hev
  obtain ⟨x, hx, hev⟩ := List.mem_flatMap.mp hev
  exact h x hx ev hev

theorem mutFree_get_k3s (r : KubectlResult) : mutFree (get_k3s_nodes r).2 = true := by
  cases r <;> rfl

theorem mutFree_ipEvents (node : String) : mutFree (ipEvents node) = true := by
  rw [ipEvents]
  split <;> rfl

theorem mutFree_get_node_ip (s : Finset String) : mutFree (get_node_ip s).2 = true :=
  mutFree_flatMap fun n _ => mutFree_ipEvents n

theorem mutFree_iff {tr : List Event} :
    mutFree tr = true ↔ ∀ ev ∈ tr, ev.isMutating = false := by
  simp [mutFree, List.all_eq_true]

theorem mutFree_planTrace (s : Finset String) : mutFree (planTrace s) = true := by
  rw [mutFree_iff]
  intro ev hev
  rw [planTrace] at hev
  rcases List.mem_cons.mp hev with rfl | h
  · rfl
  · obtain ⟨n, _, rfl⟩ := List.mem_map.mp h
    rfl

theorem mutFree_stop_dry (ip : String) (f : String → Bool) :
    mutFree (stop_k3s_on_node ip true f) = true := rfl

theorem mutFree_processNode_dry (dOk delOk : String → Bool)
    (sOk : String → String → Bool) (ips : List (String × String)) (node : String) :
    mutFree (processNode true dOk delOk sOk ips node) = true := by
  simp only [processNode, drain_node, delete_node, if_true]
  cases h : ips.lookup node <;>
    simp [mutFree, stop_k3s_on_node, sshCommands, Event.isMutating]

theorem mutFree_preRemTrace (e a : List String) : mutFree (preRemTrace e a) = true := by
  rw [preRemTrace, mutFree_append, mutFree_append, mutFree_append,
    mutFree_get_node_ip, mutFree_planTrace]
  rfl

theorem main_py_noRemove (env : Env) (e a : List String) (hc : env.config = .ok e)
    (hk : env.kubectl = .ok a) (hne : a ≠ [])
    (hsub : a.toFinset ⊆ e.toFinset) :
    main_py env = (0, headerTrace e ++
      [.callListNodes, .printActual (sortedNodes a.toFinset), .printAllMatch]) := by
  have hane : a.toFinset ≠ (∅ : Finset String) := by simpa using hne
  have h2 : nodesToRemove a.toFinset e.toFinset = ∅ := by
    rw [nodesToRemove, Finset.sdiff_eq_empty_iff_subset]; exact hsub
  simp only [main_py, hc, hk, get_k3s_nodes]
  rw [if_neg hane, if_pos h2]
  simp [headerTrace]

theorem main_py_listingFail (env : Env) (e : List String) (hc : env.config = .ok e)
    (hk : env.kubectl = .callError ∨ env.kubectl = .parseError) :
    main_py env = (1, headerTrace e ++ (get_k3s_nodes env.kubectl).2 ++
      [.printNoNodes]) := by
  rcases hk with hk | hk <;>
  · simp only [main_py, hc, hk, get_k3s_nodes]
    simp [headerTrace]

theorem main_py_cancel (env : Env) (e a : List String) (hc : env.config = .ok e)
    (hk : env.kubectl = .ok a) (hd : env.dryRun = false)
    (hrm : nodesToRemove a.toFinset e.toFinset ≠ ∅)
    (hresp : pyLower env.userInput ≠ "y") :
    main_py env = (0, preRemTrace e a ++
      [.printConfirmWarning (nodesToRemove a.toFinset e.toFinset).card, .promptProceed,
       .printCancelled]) := by
  have hane : a.toFinset ≠ (∅ : Finset String) := by
    intro h0
    apply hrm
    rw [nodesToRemove, h0]
    simp
  simp only [main_py, hc, hk, hd, get_k3s_nodes]
  rw [if_neg hane, if_neg hrm]
  simp only [Bool.false_eq_true, if_false]
  rw [if_pos hresp]
  simp [preRemTrace, headerTrace, planTrace, get_node_ip, List.append_assoc]

theorem main_py_confirm (env : Env) (e a : List String) (hc : env.config = .ok e)
    (hk : env.kubectl = .ok a) (hd : env.dryRun = false)
    (hrm : nodesToRemove a.toFinset e.toFinset ≠ ∅)
    (hresp : pyLower env.userInput = "y") :
    main_py env = (0, preRemTrace e a ++
      [.printConfirmWarning (nodesToRemove a.toFinset e.toFinset).card, .promptProceed] ++
      bodyTrace env (nodesToRemove a.toFinset e.toFinset) ++
      [.printSummaryDone (nodesToRemove a.toFinset e.toFinset).card, .printNextSteps]) := by
  have hane : a.toFinset ≠ (∅ : Finset String) := by
    intro h0
    apply hrm
    rw [nodesToRemove, h0]
    simp
  simp only [main_py, hc, hk, hd, get_k3s_nodes]
  rw [if_neg hane, if_neg hrm]
  simp only [Bool.false_eq_true, if_false]
  rw [if_neg (not_not_intro hresp)]
  simp [preRemTrace, headerTrace, planTrace, bodyTrace, get_node_ip, hd,
    List.append_assoc]

theorem main_py_dry (env : Env) (e a : List String) (hc : env.config = .ok e)
    (hk : env.kubectl = .ok a) (hd : env.dryRun = true)
    (hrm : nodesToRemove a.toFinset e.toFinset ≠ ∅) :
    main_py env = (0, preRemTrace e a ++ [.printDryRunNotice] ++
      bodyTrace env (nodesToRemove a.toFinset e.toFinset) ++
      [.printSummaryDryRun (nodesToRemove a.toFinset e.toFinset).card,
       .printNextSteps]) := by
  have hane : a.toFinset ≠ (∅ : Finset String) := by
    intro h0
    apply hrm
    rw [nodesToRemove, h0]
    simp
  simp only [main_py, hc, hk, hd, get_k3s_nodes]
  rw [if_neg hane, if_neg hrm]
  simp [preRemTrace, headerTrace, planTrace, bodyTrace, get_node_ip, hd,
    List.append_assoc]

theorem lookup_resolve_not_mem (l : List String) (node : String) (h : node ∉ l) :
    (l.filterMap fun n => (resolveIp n).map fun ip => (n, ip)).lookup node = none := by
  induction l with
  | nil => rfl
  | cons x t ih =>
    have hx : node ≠ x := by rintro rfl; exact h (List.mem_cons_self _ _)
    have ht : node ∉ t := fun hm => h (List.mem_cons_of_mem _ hm)
    simp only [List.filterMap_cons]
    cases hr : resolveIp x with
    | none => exact ih ht
    | some ip =>
      simp only [Option.map_some']
      rw [List.lookup_cons]
      simp only [beq_eq_false_iff_ne.mpr hx]
      exact ih ht

theorem lookup_resolve_mem (l : List String) (hnd : l.Nodup) (node : String)
    (hmem : node ∈ l) :
    (l.filterMap fun n => (resolveIp n).map fun ip => (n, ip)).lookup node =
      resolveIp node := by
  induction l with
  | nil => cases hmem
  | cons x t ih =>
    have hnt : t.Nodup := (List.nodup_cons.mp hnd).2
    rcases List.mem_cons.mp hmem with rfl | hm
    · have hni : node ∉ t := (List.nodup_cons.mp hnd).1
      simp only [List.filterMap_cons]
      cases hr : resolveIp node with
      | none =>
        simp only [Option.map_none']
        rw [lookup_resolve_not_mem t node hni]
      | some ip =>
        simp only [Option.map_some']
        rw [List.lookup_cons]
        simp
    · have hx : node ≠ x := by
        rintro rfl; exact (List.nodup_cons.mp hnd).1 hm
      simp only [List.filterMap_cons]
      cases hr : resolveIp x with
      | none => exact ih hnt hm
      | some ip =>
        simp only [Option.map_some']
        rw [List.lookup_cons]
        simp only [beq_eq_false_iff_ne.mpr hx]
        exact ih hnt hm

theorem get_node_ip_lookup (s : Finset String) (node : String) (hmem : node ∈ s) :
    (get_node_ip s).1.lookup node = resolveIp node := by
  rw [get_node_ip]
  exact lookup_resolve_mem _ (nodup_sortedNodes s) _ (mem_sortedNodes.mpr hmem)

theorem pyWhitespace_digit {c : Char} (h : c.isDigit = true) : pyWhitespace c = false := by
  cases hw : pyWhitespace c with
  | false => rfl
  | true =>
    exfalso
    simp only [pyWhitespace, Bool.or_eq_true, beq_iff_eq] at hw
    rcases hw with ((((rfl | rfl) | rfl) | rfl) | rfl) | rfl <;> exact absurd h (by decide)

theorem dropWhile_eq_self_of (p : Char → Bool) (l : List Char)
    (h : ∀ c ∈ l, p c = false) : l.dropWhile p = l := by
  cases l with
  | nil => rfl
  | cons a t =>
    rw [List.dropWhile_cons, h a (List.mem_cons_self a t)]
    simp

theorem stripWs_of_no_ws (l : List Char) (h : ∀ c ∈ l, pyWhitespace c = false) :
    stripWs l = l := by
  rw [stripWs, dropWhile_eq_self_of _ _ h,
    dropWhile_eq_self_of _ _ (fun c hc => h c (List.mem_reverse.mp hc)),
    List.reverse_reverse]

theorem parseRest_digits (t : List Char) : ∀ acc : Nat, (∀ c ∈ t, c.isDigit = true) →
    parseRest acc t = some (t.foldl (fun a c => a * 10 + digitVal c) acc) := by
  induction t with
  | nil => intro acc _; rfl
  | cons c cs ih =>
    intro acc h
    rw [parseRest.eq_def]
    simp only [h c (List.mem_cons_self c cs), if_true, List.foldl_cons]
    exact ih _ fun d hd => h d (List.mem_cons_of_mem _ hd)

theorem pyDigits_digits (ds : List Char) (hne : ds ≠ []) (h : ∀ c ∈ ds, c.isDigit = true) :
    pyDigits ds = some (digitsNat ds) := by
  cases ds with
  | nil => exact absurd rfl hne
  | cons c cs =>
    rw [pyDigits]
    simp only [h c (List.mem_cons_self c cs), if_true]
    rw [parseRest_digits cs (digitVal c) fun d hd => h d (List.mem_cons_of_mem _ hd)]
    rw [digitsNat, List.foldl_cons]
    norm_num

theorem pyInt_digits (ds : List Char) (hne : ds ≠ []) (h : ∀ c ∈ ds, c.isDigit = true) :
    pyInt (String.mk ds) = some ((digitsNat ds : Int)) := by
  rw [pyInt]
  show pyIntCore (stripWs ds) = _
  rw [stripWs_of_no_ws ds fun c hc => pyWhitespace_digit (h c hc)]
  cases ds with
  | nil => exact absurd rfl hne
  | cons c cs =>
    have hc := h c (List.mem_cons_self c cs)
    have hplus : (c == '+') = false :=
      beq_eq_false_iff_ne.mpr (by rintro rfl; exact absurd hc (by decide))
    have hminus : (c == '-') = false :=
      beq_eq_false_iff_ne.mpr (by rintro rfl; exact absurd hc (by decide))
    rw [pyIntCore]
    simp only [hplus, hminus, Bool.false_eq_true, if_false]
    rw [pyDigits_digits (c :: cs) hne h]
    rfl

theorem resolveIp_nuc (ds : List Char) (hne : ds ≠ []) (h : ∀ c ∈ ds, c.isDigit = true) :
    resolveIp ("nuc" ++ String.mk ds) =
      some ("192.168.1." ++ toString (140 + (digitsNat ds : Int))) := by
  have hpfx : pyStartswith ("nuc" ++ String.mk ds) "nuc" = true := rfl
  have hdrop : pyDrop ("nuc" ++ String.mk ds) 3 = String.mk ds := rfl
  rw [resolveIp, hpfx]
  simp only [if_true]
  rw [hdrop, pyInt_digits ds hne h]

theorem toLower_eq_y_iff (c : Char) : c.toLower = 'y' ↔ (c = 'y' ∨ c = 'Y') := by
  by_cases h : 65 ≤ c.toNat ∧ c.toNat ≤ 90
  · obtain ⟨h1, h2⟩ := h
    have hc : Char.ofNat c.toNat = c := Char.ofNat_toNat c
    rw [← hc]
    generalize c.toNat = n at h1 h2
    interval_cases n <;> decide
  · have hlow : c.toLower = c := by
      rw [Char.toLower]
      exact if_neg h
    rw [hlow]
    constructor
    · exact Or.inl
    · rintro (rfl | rfl)
      · rfl
      · exact absurd (by decide) h

theorem pyLower_eq_y_iff (s : String) : pyLower s = "y" ↔ (s = "y" ∨ s = "Y") := by
  obtain ⟨l⟩ := s
  rw [pyLower]
  simp only [String.ext_iff]
  show l.map Char.toLower = ['y'] ↔ l = ['y'] ∨ l = ['Y']
  cases l with
  | nil => simp
  | cons c t =>
    cases t with
    | nil =>
      simp only [List.map_cons, List.map_nil, List.cons.injEq, and_true]
      exact toLower_eq_y_iff c
    | cons d u => simp

theorem mutFree_append_iff {t₁ t₂ : List Event} :
    mutFree (t₁ ++ t₂) = true ↔ (mutFree t₁ = true ∧ mutFree t₂ = true) := by
  rw [mutFree_append, Bool.and_eq_true]

theorem mutFree_plan_map (l : List String) (g : String → String) :
    mutFree (Event.printPlanHeader :: l.map fun n => Event.printPlanEntry n (g n)) = true := by
  rw [mutFree_iff]
  intro ev hev
  rcases List.mem_cons.mp hev with rfl | h
  · rfl
  · obtain ⟨n, -, rfl⟩ := List.mem_map.mp h
    rfl

theorem mem_processNode_drain (dOk delOk : String → Bool) (sOk : String → String → Bool)
    (ips : List (String × String)) (node : String) :
    Event.callDrain node ∈ processNode false dOk delOk sOk ips node := by
  simp [processNode, drain_node, delete_node]

theorem mem_processNode_delete (dOk delOk : String → Bool) (sOk : String → String → Bool)
    (ips : List (String × String)) (node : String) :
    Event.callDelete node ∈ processNode false dOk delOk sOk ips node := by
  simp [processNode, drain_node, delete_node]

theorem mem_processNode_drainFailed (dOk delOk : String → Bool) (sOk : String → String → Bool)
    (ips : List (String × String)) (node : String) (h : dOk node = false) :
    Event.printDrainFailed node ∈ processNode false dOk delOk sOk ips node := by
  simp [processNode, drain_node, delete_node, h]

theorem mem_processNode_contAfterDrain (dOk delOk : String → Bool) (sOk : String → String → Bool)
    (ips : List (String × String)) (node : String) (h : dOk node = false) :
    Event.printContinueAfterDrain node ∈ processNode false dOk delOk sOk ips node := by
  simp [processNode, drain_node, delete_node, h]

theorem mem_processNode_skipStop (dry : Bool) (dOk delOk : String → Bool)
    (sOk : String → String → Bool) (ips : List (String × String)) (node : String)
    (h : ips.lookup node = none) :
    Event.printSkipStop node ∈ processNode dry dOk delOk sOk ips node := by
  simp [processNode, drain_node, delete_node, h]

theorem mem_bodyTrace {env : Env} {R : Finset String} {node : String} {ev : Event}
    (hmem : node ∈ R)
    (hev : ev ∈ processNode env.dryRun env.drainOk env.deleteOk env.sshOk
      (get_node_ip R).1 node) :
    ev ∈ bodyTrace env R := by
  rw [bodyTrace]
  exact List.mem_flatMap.mpr ⟨node, mem_sortedNodes.mpr hmem, hev⟩

theorem mutFree_main_dry (env : Env) (hd : env.dryRun = true) :
    mutFree (main_py env).2 = true := by
  cases hcfg : env.config with
  | loadError =>
    simp only [main_py, hcfg]
    rfl
  | ok cfgNames =>
    cases hres : (get_k3s_nodes env.kubectl).1 with
    | none =>
      simp only [main_py, hcfg, hres]
      simp only [mutFree_append_iff]
      exact ⟨⟨rfl, mutFree_get_k3s _⟩, rfl⟩
    | some actual =>
      by_cases hne : actual = ∅
      · simp only [main_py, hcfg, hres]
        rw [if_pos hne]
        simp only [mutFree_append_iff]
        exact ⟨⟨rfl, mutFree_get_k3s _⟩, rfl⟩
      · by_cases hrm : nodesToRemove actual cfgNames.toFinset = ∅
        · simp only [main_py, hcfg, hres]
          rw [if_neg hne, if_pos hrm]
          simp only [mutFree_append_iff]
          exact ⟨⟨⟨rfl, mutFree_get_k3s _⟩, rfl⟩, rfl⟩
        · simp only [main_py, hcfg, hres, hd]
          rw [if_neg hne, if_neg hrm]
          simp only [if_true]
          simp only [mutFree_append_iff]
          refine ⟨⟨⟨⟨⟨⟨⟨⟨rfl, mutFree_get_k3s _⟩, rfl⟩, rfl⟩, mutFree_get_node_ip _⟩,
            mutFree_plan_map _ _⟩, rfl⟩, ?_⟩, rfl⟩
          exact mutFree_flatMap fun n _ => mutFree_processNode_dry _ _ _ _ _

theorem hasEvent_append {p : Event → Bool} {t₁ t₂ : List Event} :
    hasEvent p (t₁ ++ t₂) = (hasEvent p t₁ || hasEvent p t₂) := List.any_append

theorem hasEvent_flatMap {α : Type} {p : Event → Bool} {l : List α} {f : α → List Event}
    (h : ∀ x ∈ l, hasEvent p (f x) = false) : hasEvent p (l.flatMap f) = false := by
  simp only [hasEvent, List.any_eq_false] at *
  intro ev hev
  obtain ⟨x, hx, hev⟩ := List.mem_flatMap.mp hev
  exact h x hx ev hev

theorem hasEvent_ipEvents {p : Event → Bool}
    (h : ∀ node, p (Event.printCannotResolve node) = false) (node : String) :
    hasEvent p (ipEvents node) = false := by
  rw [ipEvents]
  split
  · simp [hasEvent, h node]
  · rfl

theorem hasEvent_get_node_ip {p : Event → Bool}
    (h : ∀ node, p (Event.printCannotResolve node) = false) (s : Finset String) :
    hasEvent p (get_node_ip s).2 = false :=
  hasEvent_flatMap fun n _ => hasEvent_ipEvents h n

theorem hasEvent_preRemTrace {p : Event → Bool} (e a : List String)
    (h1 : p .printHeader = false) (h2 : p .printSeparator = false)
    (h3 : ∀ ns, p (.printExpected ns) = false) (h4 : p .callListNodes = false)
    (h5 : ∀ ns, p (.printActual ns) = false)
    (h6 : ∀ ns, p (.printNodesToRemove ns) = false)
    (h7 : ∀ n, p (.printCannotResolve n) = false) (h8 : p .printPlanHeader = false)
    (h9 : ∀ n ip, p (.printPlanEntry n ip) = false) :
    hasEvent p (preRemTrace e a) = false := by
  rw [preRemTrace]
  simp only [hasEvent_append, Bool.or_eq_false_iff]
  refine ⟨⟨⟨?_, ?_⟩, ?_⟩, ?_⟩
  · simp [hasEvent, headerTrace, h1, h2, h3]
  · simp [hasEvent, h4, h5, h6]
  · exact hasEvent_get_node_ip h7 _
  · rw [planTrace]
    simp [hasEvent, h8, h9]

/-! ### Claims -/

/-- C1 counterexample: the claim asserts that whenever the actual set is a
subset of the expected set the run ends successfully, for every actual set
returned by the cluster listing.  With expected nodes `["nuc1"]` and a
successful listing returning no nodes, the actual set `∅` is a subset of the
expected set, yet the run exits with code 1 (line 140 treats an empty
listing as unusable cluster state) and never prints the all-match message. -/
theorem empty_listing_refutes_success_claim :
    (([] : List String).toFinset ⊆ (["nuc1"] : List String).toFinset) ∧
    envEmptyListing.config = .ok ["nuc1"] ∧
    envEmptyListing.kubectl = .ok [] ∧
    (main_py envEmptyListing).1 = 1 ∧
    Event.printAllMatch ∉ (main_py envEmptyListing).2 := by
  exact ⟨by decide, rfl, rfl, by decide, by decide⟩

/-- C1 (amended): the computed removal set equals `actual − expected`,
independent of the order of the input lists, and is empty iff the actual set
is a subset of the expected set; provided the listing returned at least one
node, an empty removal set makes the run end successfully (exit 0, all-match
message, no mutating call, no plan printed).  (When the listing returns an
empty actual set — vacuously a subset — the run instead aborts with exit 1,
since the script cannot distinguish an empty listing from a failed one.) -/
theorem removal_set_reconciliation :
    (∀ actual expected : Finset String,
      nodesToRemove actual expected = actual \ expected) ∧
    (∀ a₁ a₂ e₁ e₂ : List String, a₁.Perm a₂ → e₁.Perm e₂ →
      nodesToRemove a₁.toFinset e₁.toFinset = nodesToRemove a₂.toFinset e₂.toFinset) ∧
    (∀ actual expected : Finset String,
      nodesToRemove actual expected = ∅ ↔ actual ⊆ expected) ∧
    (∀ (env : Env) (e a : List String), env.config = .ok e → env.kubectl = .ok a →
      a ≠ [] → a.toFinset ⊆ e.toFinset →
      (main_py env).1 = 0 ∧ Event.printAllMatch ∈ (main_py env).2 ∧
      mutFree (main_py env).2 = true ∧
      hasEvent isPlanEvent (main_py env).2 = false) := by
  refine ⟨fun _ _ => rfl, ?_, ?_, ?_⟩
  · intro a₁ a₂ e₁ e₂ ha he
    rw [List.toFinset_eq_of_perm _ _ ha, List.toFinset_eq_of_perm _ _ he]
  · intro actual expected
    rw [nodesToRemove]
    exact Finset.sdiff_eq_empty_iff_subset
  · intro env e a hc hk hne hsub
    rw [main_py_noRemove env e a hc hk hne hsub]
    refine ⟨rfl, ?_, rfl, rfl⟩
    simp [headerTrace]

/-- C1 witness: the amended theorem applied to concrete inputs: expected
`["nuc1", "nuc2"]`, actual `["nuc1", "nuc2"]` (a permutation-invariant empty
difference) and the environment `envSubset`. -/
theorem removal_set_reconciliation_inst :
    nodesToRemove (["nuc1", "nuc2"] : List String).toFinset
      (["nuc2", "nuc1"] : List String).toFinset = ∅ ∧
    (main_py envSubset).1 = 0 ∧ Event.printAllMatch ∈ (main_py envSubset).2 ∧
    mutFree (main_py envSubset).2 = true := by
  refine ⟨(removal_set_reconciliation.2.2.1 _ _).mpr (by decide), ?_, ?_, ?_⟩
  · exact (removal_set_reconciliation.2.2.2 envSubset ["nuc1", "nuc2"] ["nuc1", "nuc2"]
      rfl rfl (by decide) (by decide)).1
  · exact (removal_set_reconciliation.2.2.2 envSubset ["nuc1", "nuc2"] ["nuc1", "nuc2"]
      rfl rfl (by decide) (by decide)).2.1
  · exact (removal_set_reconciliation.2.2.2 envSubset ["nuc1", "nuc2"] ["nuc1", "nuc2"]
      rfl rfl (by decide) (by decide)).2.2.1

/-- C2 counterexample: the claim asserts that for every failing or malformed
cluster-listing response the inspector returns the empty set rather than
raising.  The `except` clauses at lines 34-39 catch only
`CalledProcessError` and `JSONDecodeError`: when the output is valid JSON
but not shaped as a node list, the extraction at line 33 raises an uncaught
`KeyError`, so `get_k3s_nodes` raises (`none`) instead of returning the
empty set, and the run crashes with a traceback instead of printing the
no-nodes warning. -/
theorem wrong_shape_listing_raises :
    (get_k3s_nodes .shapeError).1 = none ∧
    (get_k3s_nodes .shapeError).1 ≠ some ∅ ∧
    envShapeFail.kubectl = .shapeError ∧
    (main_py envShapeFail).1 = 1 ∧
    Event.uncaughtException ∈ (main_py envShapeFail).2 ∧
    Event.printNoNodes ∉ (main_py envShapeFail).2 := by
  exact ⟨rfl, by decide, rfl, by decide, by decide, by decide⟩

/-- C2 (amended): for the cluster-listing failures the script catches — the
listing subprocess failing (`CalledProcessError`) or output that is not
valid JSON (`JSONDecodeError`) — `get_k3s_nodes` returns the empty set
instead of raising, and the run then exits with code 1 having made no
mutating call, never having computed or announced a removal set and never
having printed a plan.  For the uncaught failure modes — a missing `kubectl`
binary (`FileNotFoundError` at line 28) or valid JSON of the wrong shape
(`KeyError` at line 33) — the inspector raises; the exception propagates out
of `main`, so the run still terminates with a non-zero exit before computing
any removal set and with no mutating call, but via a traceback rather than
the graceful empty-set path.  In neither mode is the empty result treated as
"remove every node". -/
theorem kubectl_failure_aborts :
    (∀ (env : Env) (e : List String), env.config = .ok e →
      env.kubectl = .callError ∨ env.kubectl = .parseError →
      (get_k3s_nodes env.kubectl).1 = some ∅ ∧
      (main_py env).1 = 1 ∧
      mutFree (main_py env).2 = true ∧
      hasEvent isRemovePrint (main_py env).2 = false ∧
      hasEvent isPlanEvent (main_py env).2 = false) ∧
    (∀ (env : Env) (e : List String), env.config = .ok e →
      env.kubectl = .spawnError ∨ env.kubectl = .shapeError →
      (get_k3s_nodes env.kubectl).1 = none ∧
      (main_py env).1 = 1 ∧
      Event.uncaughtException ∈ (main_py env).2 ∧
      mutFree (main_py env).2 = true ∧
      hasEvent isRemovePrint (main_py env).2 = false ∧
      hasEvent isPlanEvent (main_py env).2 = false) := by
  constructor
  · intro env e hc hk
    have h1 : (get_k3s_nodes env.kubectl).1 = some ∅ := by
      rcases hk with hk | hk <;> rw [hk] <;> rfl
    rw [main_py_listingFail env e hc hk]
    refine ⟨h1, rfl, ?_, ?_, ?_⟩
    · simp only [mutFree_append_iff]
      exact ⟨⟨rfl, mutFree_get_k3s _⟩, rfl⟩
    · rcases hk with hk | hk <;> rw [hk] <;> rfl
    · rcases hk with hk | hk <;> rw [hk] <;> rfl
  · intro env e hc hk
    have h : main_py env = (1, headerTrace e ++ (get_k3s_nodes env.kubectl).2 ++
        [.uncaughtException]) := by
      rcases hk with hk | hk <;>
      · simp only [main_py, hc, hk, get_k3s_nodes]
        simp [headerTrace]
    rw [h]
    refine ⟨?_, rfl, by simp, ?_, ?_, ?_⟩
    · rcases hk with hk | hk <;> rw [hk] <;> rfl
    · simp only [mutFree_append_iff]
      exact ⟨⟨rfl, mutFree_get_k3s _⟩, rfl⟩
    · rcases hk with hk | hk <;> rw [hk] <;> rfl
    · rcases hk with hk | hk <;> rw [hk] <;> rfl

/-- C2 witness: the theorem applied to `envListFail` (caught
`CalledProcessError`) and `envSpawnFail` (uncaught `FileNotFoundError`). -/
theorem kubectl_failure_aborts_inst :
    (get_k3s_nodes envListFail.kubectl).1 = some ∅ ∧
    (main_py envListFail).1 = 1 ∧
    mutFree (main_py envListFail).2 = true ∧
    (get_k3s_nodes envSpawnFail.kubectl).1 = none ∧
    (main_py envSpawnFail).1 = 1 ∧
    Event.uncaughtException ∈ (main_py envSpawnFail).2 := by
  have H1 := kubectl_failure_aborts.1 envListFail ["nuc1"] rfl (Or.inl rfl)
  have H2 := kubectl_failure_aborts.2 envSpawnFail ["nuc1"] rfl (Or.inl rfl)
  exact ⟨H1.1, H1.2.1, H1.2.2.1, H2.1, H2.2.1, H2.2.2.1⟩

/-- C3: in dry-run mode each mutating operation returns success after only
printing what it would do (drain, delete, and each of the three ssh
commands), and a dry run of the whole script emits no mutating call in any
branch, so the loop and summary logic run on the same removal set as a real
run would. -/
theorem dry_run_never_mutates :
    (∀ node ok, drain_node node true ok = (true, [Event.printDryRunDrain node])) ∧
    (∀ node ok, delete_node node true ok = (true, [Event.printDryRunDelete node])) ∧
    (∀ ip f, stop_k3s_on_node ip true f =
      sshCommands.map fun cmd => Event.printDryRunSsh ip cmd) ∧
    (∀ env : Env, env.dryRun = true → mutFree (main_py env).2 = true) := by
  exact ⟨fun _ _ => rfl, fun _ _ => rfl, fun _ _ => rfl, mutFree_main_dry⟩

/-- C3 witness: a dry-run drain (even with a failing oracle) returns success
with only a description printed, and the full dry run `envDry` (removal set
`{nuc3}`) emits no mutating call. -/
theorem dry_run_never_mutates_inst :
    drain_node "nuc3" true false = (true, [Event.printDryRunDrain "nuc3"]) ∧
    mutFree (main_py envDry).2 = true :=
  ⟨dry_run_never_mutates.1 "nuc3" false, dry_run_never_mutates.2.2.2 envDry rfl⟩

/-- C4: in a real (non-dry) run with a non-empty removal set, any
confirmation answer other than an affirmative one leaves the trace free of
every mutating call (no drain, delete or ssh command), prints the
cancellation message, and the success summary is never printed — the run
aborts before any node is touched. -/
theorem nonaffirmative_aborts_untouched (env : Env) (e a : List String)
    (hc : env.config = .ok e) (hk : env.kubectl = .ok a)
    (hd : env.dryRun = false)
    (hrm : nodesToRemove a.toFinset e.toFinset ≠ ∅)
    (hresp : pyLower env.userInput ≠ "y") :
    mutFree (main_py env).2 = true ∧
    hasEvent isSummaryDone (main_py env).2 = false ∧
    Event.printCancelled ∈ (main_py env).2 := by
  rw [main_py_cancel env e a hc hk hd hrm hresp]
  refine ⟨?_, ?_, by simp⟩
  · simp only [mutFree_append_iff]
    exact ⟨mutFree_preRemTrace e a, rfl⟩
  · rw [hasEvent_append]
    rw [hasEvent_preRemTrace e a rfl rfl (fun _ => rfl) rfl (fun _ => rfl)
      (fun _ => rfl) (fun _ => rfl) rfl (fun _ _ => rfl)]
    rfl

/-- C4 witness: the theorem applied to `envCancel` (removal set `{nuc3}`,
answer `"yes"`). -/
theorem nonaffirmative_aborts_untouched_inst :
    mutFree (main_py envCancel).2 = true ∧
    hasEvent isSummaryDone (main_py envCancel).2 = false ∧
    Event.printCancelled ∈ (main_py envCancel).2 :=
  nonaffirmative_aborts_untouched envCancel ["nuc1", "nuc2"] ["nuc1", "nuc2", "nuc3"]
    rfl rfl rfl (by decide) (by decide)

/-- C5: a node named `nuc` followed by a numeric suffix (digit string `ds`
of value `n`) resolves to `"192.168.1." ++ toString (140 + n)`, both as the
per-node heuristic and as the entry of the mapping built by `get_node_ip`
for any removal set containing the node; in particular `nuc3` resolves to
`192.168.1.143`. -/
theorem nuc_numeric_suffix_resolves (ds : List Char) (hne : ds ≠ [])
    (hdig : ∀ c ∈ ds, c.isDigit = true) (s : Finset String)
    (hmem : ("nuc" ++ String.mk ds) ∈ s) :
    resolveIp ("nuc" ++ String.mk ds) =
      some ("192.168.1." ++ toString (140 + (digitsNat ds : Int))) ∧
    (get_node_ip s).1.lookup ("nuc" ++ String.mk ds) =
      some ("192.168.1." ++ toString (140 + (digitsNat ds : Int))) ∧
    resolveIp "nuc3" = some "192.168.1.143" := by
  have h1 := resolveIp_nuc ds hne hdig
  exact ⟨h1, by rw [get_node_ip_lookup s _ hmem, h1], by decide⟩

/-- C5 witness: the theorem applied to the digit string `"3"` and the
removal set `{nuc3}`. -/
theorem nuc_numeric_suffix_resolves_inst :
    resolveIp ("nuc" ++ String.mk ['3']) =
      some ("192.168.1." ++ toString (140 + (digitsNat ['3'] : Int))) ∧
    (get_node_ip {"nuc" ++ String.mk ['3']}).1.lookup ("nuc" ++ String.mk ['3']) =
      some ("192.168.1." ++ toString (140 + (digitsNat ['3'] : Int))) := by
  have H := nuc_numeric_suffix_resolves ['3'] (by decide) (by decide)
    {"nuc" ++ String.mk ['3']} (Finset.mem_singleton_self _)
  exact ⟨H.1, H.2.1⟩

/-- C6: a node of the removal set whose name does not match the
`nuc` + integer pattern gets no entry in the IP mapping, its remote-stop
step is replaced by the skip message, and it is still drained and deleted
(both cluster calls appear in the trace of a confirmed run). -/
theorem unresolvable_skips_remote_stop (env : Env) (e a : List String)
    (hc : env.config = .ok e) (hk : env.kubectl = .ok a)
    (hd : env.dryRun = false) (hy : pyLower env.userInput = "y")
    (node : String) (hmem : node ∈ nodesToRemove a.toFinset e.toFinset)
    (hpat : pyStartswith node "nuc" = false ∨ pyInt (pyDrop node 3) = none) :
    resolveIp node = none ∧
    (get_node_ip (nodesToRemove a.toFinset e.toFinset)).1.lookup node = none ∧
    Event.printSkipStop node ∈ (main_py env).2 ∧
    Event.callDrain node ∈ (main_py env).2 ∧
    Event.callDelete node ∈ (main_py env).2 := by
  have hres : resolveIp node = none := by
    rw [resolveIp]
    rcases hpat with h | h
    · rw [h]
      simp
    · rw [h]
      simp
  have hlook : (get_node_ip (nodesToRemove a.toFinset e.toFinset)).1.lookup node = none := by
    rw [get_node_ip_lookup _ node hmem, hres]
  have hrm : nodesToRemove a.toFinset e.toFinset ≠ ∅ := Finset.ne_empty_of_mem hmem
  rw [main_py_confirm env e a hc hk hd hrm hy]
  refine ⟨hres, hlook, ?_, ?_, ?_⟩
  · exact List.mem_append_left _ (List.mem_append_right _
      (mem_bodyTrace hmem (by rw [hd]; exact mem_processNode_skipStop _ _ _ _ _ _ hlook)))
  · exact List.mem_append_left _ (List.mem_append_right _
      (mem_bodyTrace hmem (by rw [hd]; exact mem_processNode_drain _ _ _ _ _)))
  · exact List.mem_append_left _ (List.mem_append_right _
      (mem_bodyTrace hmem (by rw [hd]; exact mem_processNode_delete _ _ _ _ _)))

/-- C6 witness: the theorem applied to `envNoPattern`, whose removal set is
`{worker9}`; the name does not start with `nuc`. -/
theorem unresolvable_skips_remote_stop_inst :
    resolveIp "worker9" = none ∧
    Event.printSkipStop "worker9" ∈ (main_py envNoPattern).2 ∧
    Event.callDrain "worker9" ∈ (main_py envNoPattern).2 ∧
    Event.callDelete "worker9" ∈ (main_py envNoPattern).2 := by
  have H := unresolvable_skips_remote_stop envNoPattern ["nuc1"] ["nuc1", "worker9"]
    rfl rfl rfl (by decide) "worker9" (by decide) (Or.inl (by decide))
  exact ⟨H.1, H.2.2.1, H.2.2.2.1, H.2.2.2.2⟩

/-- C7: in a confirmed real run, every node of the removal set has its drain
call and its delete call in the trace regardless of the outcome of any step
on it or on earlier nodes (the success oracles are unconstrained), and a
drain failure of a node is reported and followed by the continuation
message. -/
theorem drain_failure_nonblocking (env : Env) (e a : List String)
    (hc : env.config = .ok e) (hk : env.kubectl = .ok a)
    (hd : env.dryRun = false) (hy : pyLower env.userInput = "y") :
    ∀ node ∈ nodesToRemove a.toFinset e.toFinset,
      Event.callDrain node ∈ (main_py env).2 ∧
      Event.callDelete node ∈ (main_py env).2 ∧
      (env.drainOk node = false →
        Event.printDrainFailed node ∈ (main_py env).2 ∧
        Event.printContinueAfterDrain node ∈ (main_py env).2) := by
  intro node hmem
  have hrm : nodesToRemove a.toFinset e.toFinset ≠ ∅ := Finset.ne_empty_of_mem hmem
  rw [main_py_confirm env e a hc hk hd hrm hy]
  refine ⟨?_, ?_, fun hfail => ⟨?_, ?_⟩⟩
  · exact List.mem_append_left _ (List.mem_append_right _
      (mem_bodyTrace hmem (by rw [hd]; exact mem_processNode_drain _ _ _ _ _)))
  · exact List.mem_append_left _ (List.mem_append_right _
      (mem_bodyTrace hmem (by rw [hd]; exact mem_processNode_delete _ _ _ _ _)))
  · exact List.mem_append_left _ (List.mem_append_right _
      (mem_bodyTrace hmem (by rw [hd]; exact mem_processNode_drainFailed _ _ _ _ _ hfail)))
  · exact List.mem_append_left _ (List.mem_append_right _
      (mem_bodyTrace hmem (by rw [hd]; exact mem_processNode_contAfterDrain _ _ _ _ _ hfail)))

/-- C7 witness: the theorem applied to `envDrainFail`, where every drain
fails; the delete call for `nuc3` still happens and the failure is
reported. -/
theorem drain_failure_nonblocking_inst :
    Event.callDrain "nuc3" ∈ (main_py envDrainFail).2 ∧
    Event.callDelete "nuc3" ∈ (main_py envDrainFail).2 ∧
    Event.printDrainFailed "nuc3" ∈ (main_py envDrainFail).2 := by
  have H := drain_failure_nonblocking envDrainFail ["nuc1"] ["nuc1", "nuc3"]
    rfl rfl rfl (by decide) "nuc3" (by decide)
  exact ⟨H.1, H.2.1, (H.2.2 rfl).1⟩

/-- C8: when loading or parsing the membership file fails, the process exits
with code 1 after printing only the startup banner and the diagnostic
message — in particular the cluster listing call is never made and nothing
is mutated; no default configuration is substituted. -/
theorem config_failure_exits_before_api (env : Env) (hc : env.config = .loadError) :
    main_py env = (1, [.printHeader, .printSeparator, .printLoadError]) ∧
    hasEvent isListCall (main_py env).2 = false ∧
    mutFree (main_py env).2 = true := by
  have h : main_py env = (1, [.printHeader, .printSeparator, .printLoadError]) := by
    simp only [main_py, hc]
  refine ⟨h, ?_, ?_⟩ <;> rw [h] <;> rfl

/-- C8 witness: the theorem applied to `envConfigFail`. -/
theorem config_failure_exits_before_api_inst :
    main_py envConfigFail = (1, [.printHeader, .printSeparator, .printLoadError]) :=
  (config_failure_exits_before_api envConfigFail rfl).1

/-- C9: `response.lower() == "y"` holds exactly for the inputs `"y"` and
`"Y"`; any other input — including `"yes"` — cancels the run, which then
terminates with exit code 0 and the cancellation message, not a failure
exit. -/
theorem only_y_confirms :
    (∀ s : String, pyLower s = "y" ↔ (s = "y" ∨ s = "Y")) ∧
    pyLower "yes" ≠ "y" ∧
    (∀ (env : Env) (e a : List String), env.config = .ok e → env.kubectl = .ok a →
      env.dryRun = false → nodesToRemove a.toFinset e.toFinset ≠ ∅ →
      pyLower env.userInput ≠ "y" →
      (main_py env).1 = 0 ∧ Event.printCancelled ∈ (main_py env).2) := by
  refine ⟨pyLower_eq_y_iff, by decide, ?_⟩
  intro env e a hc hk hd hrm hresp
  rw [main_py_cancel env e a hc hk hd hrm hresp]
  exact ⟨rfl, by simp⟩

/-- C9 witness: `"yes"` is not affirmative and the cancelled run
`envCancel` exits with code 0. -/
theorem only_y_confirms_inst :
    (main_py envCancel).1 = 0 ∧ Event.printCancelled ∈ (main_py envCancel).2 :=
  only_y_confirms.2.2 envCancel ["nuc1", "nuc2"] ["nuc1", "nuc2", "nuc3"]
    rfl rfl rfl (by decide) (by decide)

/-- C10: the suffix after `nuc` is parsed with general integer parsing and
the result is not range-checked: a negative suffix resolves
(`nuc-5 ↦ 192.168.1.135`), a whitespace-padded suffix resolves
(`"nuc 5" ↦ 192.168.1.145`), and an overflowing last octet is emitted
verbatim (`nuc200 ↦ 192.168.1.340`, not a valid IPv4 address); the mapping
built for the removal set `{nuc-5, nuc200}` contains both entries. -/
theorem resolver_no_range_validation :
    resolveIp "nuc-5" = some "192.168.1.135" ∧
    resolveIp "nuc 5" = some "192.168.1.145" ∧
    resolveIp "nuc200" = some "192.168.1.340" ∧
    get_node_ip {"nuc-5", "nuc200"} =
      ([("nuc-5", "192.168.1.135"), ("nuc200", "192.168.1.340")], []) := by
  exact ⟨by decide, by decide, by decide, by decide⟩
